import Mathlib

/-!
Verification of the analytics aggregation backend of the tag-manager
repository: a storage-agnostic metric contract with two implementations,
`GoogleCloudBigQuery` (columnar SQL) and `MongoDb` (aggregation pipelines).
Each definition below is a shallow embedding of the corresponding source
function: SQL queries and aggregation pipelines are translated, stage by
stage, into pure Lean functions over explicit lists of event rows.
Machine floats in the source appear only in the two scalar metrics, where
they hold exact small rationals, so the rounded quotient is modelled by
exact integer arithmetic in jsRound.
-/

/-- JavaScript Math.round applied to the exact rational num / den (with
den positive): Math.round x is the floor of x + 1/2, which for an exact
fraction equals the floor division of 2 * num + den by 2 * den.  The two
scalar metrics divide small exact counters, so the float arithmetic of
the source is exact and this integer model is faithful. -/
def jsRound (num : ℤ) (den : ℕ) : ℤ := Int.fdiv (2 * num + den) (2 * den)

/-- List version of a starts-with test (first argument is the candidate
leading segment). -/
def startsWithL [DecidableEq α] : List α → List α → Bool
  | [], _ => true
  | _ :: _, [] => false
  | x :: xs, y :: ys => x = y && startsWithL xs ys

/-- Does the list `s` contain `pat` as a contiguous segment. -/
def hasSegment [DecidableEq α] (pat s : List α) : Bool :=
  match s with
  | [] => startsWithL pat []
  | _ :: ys => startsWithL pat s || hasSegment pat ys

/-- Substring test: does the string `s` contain `pat` as a contiguous
substring.  Models SQL INSTR(s, pat) > 0 and the anchor-free part of a
MongoDB regular-expression match. -/
def containsStr (s pat : String) : Bool := hasSegment pat.toList s.toList

/-- ASCII lowercase code point of a character (uppercase letters shift
by 32, everything else is unchanged). -/
def lowerN (c : Char) : ℕ :=
  if 65 ≤ c.toNat && c.toNat ≤ 90 then c.toNat + 32 else c.toNat

/-- The ASCII-lowercased code points of a string. -/
def lowerCodes (s : String) : List ℕ := s.toList.map lowerN

/-- Case-insensitive substring test, modelling a MongoDB regular
expression with the i flag (the patterns used by the source are plain
ASCII lowercase words). -/
def icontainsStr (s pat : String) : Bool := hasSegment (lowerCodes pat) (lowerCodes s)

/-- Deduplicate a list keeping the first occurrence of each element, with
an accumulator of already-seen elements. -/
def firstDedupAux [DecidableEq α] : List α → List α → List α
  | [], _ => []
  | x :: xs, seen =>
    if x ∈ seen then firstDedupAux xs seen else x :: firstDedupAux xs (x :: seen)

/-- Deduplicate a list keeping first occurrences (used to model grouping
keys and COUNT(DISTINCT ...)). -/
def firstDedup [DecidableEq α] (l : List α) : List α := firstDedupAux l []

/-- Minimum of a list of naturals, 0 on the empty list (the metrics only
apply it to nonempty per-user timestamp lists).  Models MIN(dt) / $min. -/
def listMinD (l : List ℕ) : ℕ :=
  match l with
  | [] => 0
  | x :: xs => xs.foldl Nat.min x

/-- Maximum of a list of naturals, 0 on the empty list.  Models MAX(dt)
and the $max accumulator. -/
def listMaxD (l : List ℕ) : ℕ :=
  match l with
  | [] => 0
  | x :: xs => xs.foldl Nat.max x

/-- Stable insertion (descending by the key `f`) of one element into an
already descending list: the element goes before the first strictly
smaller key, after equal keys already present. -/
def insDescBy (f : α → ℕ) (x : α) : List α → List α
  | [] => [x]
  | y :: ys => if f y ≤ f x then x :: y :: ys else y :: insDescBy f x ys

/-- Stable descending sort by the key `f`; models ORDER BY ... DESC and
the $sort pipeline stage (tie order between equal keys is the input
order, matching the unspecified tie-break noted in the spec). -/
def sortDescBy (f : α → ℕ) (l : List α) : List α := l.foldr (insDescBy f) []

/-- Group a list of (key, user) rows by key: for each distinct key (in
first-appearance order) return (key, distinct user count, row count).
Models both the SQL pattern GROUP BY key with COUNT(DISTINCT user_hash)
and SUM(1), and the MongoDB double $group by (key, user_hash) then key. -/
def groupRows [DecidableEq κ] (rows : List (κ × String)) : List (κ × ℕ × ℕ) :=
  (firstDedup (rows.map Prod.fst)).map (fun k =>
    let rs := rows.filter (fun p => p.1 = k)
    (k, (firstDedup (rs.map Prod.snd)).length, rs.length))

namespace GoogleCloudBigQuery

/-- GoogleCloudBigQuery.bounceRatio, from the SQL text: the inner query
groups the filtered rows by user_hash with SUM(1) AS count; the outer
query computes SUM(IF(count = 1, 1, 0)) / SUM(count); the caller applies
Math.round (and surfaces 0 when the aggregate is NULL on empty input).
Input: the user_hash column of the filtered rows, one entry per event. -/
def bounceRatio (us : List String) : ℤ :=
  let users := firstDedup us
  let counts := users.map (fun u => (us.filter (· = u)).length)
  let bouncers := (counts.filter (· = 1)).length
  let totalEvents := counts.sum
  if totalEvents = 0 then 0 else jsRound bouncers totalEvents

end GoogleCloudBigQuery

namespace MongoDb

/-- MongoDb.bounceRatio, from the aggregation pipeline: $group by
user_hash with count $sum 1; $project bounce = 1 if count = 1 else 0;
$group _id null with $avg of bounce; the caller applies Math.round and 0
on an empty result.  Input: the user_hash field of the matched
documents, one entry per event. -/
def bounceRatio (us : List String) : ℤ :=
  let users := firstDedup us
  let counts := users.map (fun u => (us.filter (· = u)).length)
  let bouncers := (counts.filter (· = 1)).length
  if users.isEmpty then 0 else jsRound bouncers users.length

end MongoDb

/-- C1: the two backends do not return identical results for every metric
operation on equivalently seeded data: on three users with 1, 1 and 3
events respectively, bounceRatio returns 0 in the columnar backend
(which divides the bouncing-user count by the total event count) and 1
in the document backend (which divides by the user count). -/
theorem c1_cross_backend_bounce_divergence :
    GoogleCloudBigQuery.bounceRatio ["A", "B", "C", "C", "C"] = 0 ∧
    MongoDb.bounceRatio ["A", "B", "C", "C", "C"] = 1 := by
  constructor <;> decide

/-- C2: on the example of the claim (user A with one event, user B with
two events in range), the document backend returns round(1/2) = 1 as the
claim states, but the columnar backend computes
SUM(IF(count = 1, 1, 0)) / SUM(count), dividing by the total event count
instead of the user count, and returns round(1/3) = 0. -/
theorem c2_bounce_ratio_denominator_bug :
    MongoDb.bounceRatio ["A", "B", "B"] = 1 ∧
    GoogleCloudBigQuery.bounceRatio ["A", "B", "B"] = 0 := by
  constructor <;> decide

/-- One filtered raw event for the sessionization metrics: the user_hash
column and the event timestamp dt, modelled in whole seconds. -/
structure SessEv where
  user_hash : String
  dt : ℕ

namespace GoogleCloudBigQuery

/-- Inner subquery of GoogleCloudBigQuery.averageSessionDuration: group
the filtered rows by user_hash, compute
DATETIME_DIFF(MAX(dt), MIN(dt), SECOND), and keep only the rows with
HAVING time_diff > 0. -/
def sessionTimeDiffs (evs : List SessEv) : List ℤ :=
  ((firstDedup (evs.map (·.user_hash))).map (fun u =>
      let ts := (evs.filter (·.user_hash = u)).map (·.dt)
      ((listMaxD ts : ℤ) - (listMinD ts : ℤ)))).filter (fun d => 0 < d)

/-- GoogleCloudBigQuery.averageSessionDuration: AVG over the positive
per-user time differences; the caller applies Math.round and returns 0
when the average is NULL (no qualifying session). -/
def averageSessionDuration (evs : List SessEv) : ℤ :=
  let qual := sessionTimeDiffs evs
  if qual.length = 0 then 0 else jsRound qual.sum qual.length

end GoogleCloudBigQuery

namespace MongoDb

/-- Per-user stage of MongoDb.averageSessionDuration: $project converts
dt to a decimal (milliseconds, modelled as 1000 * dt); the $group stage
stores, exactly as the source does, the $min accumulator in the field
named max and the $max accumulator in the field named min; $addFields
sets diff to field max minus field min. -/
def sessionDiffs (evs : List SessEv) : List ℤ :=
  (firstDedup (evs.map (·.user_hash))).map (fun u =>
    let ts := (evs.filter (·.user_hash = u)).map (fun e => 1000 * e.dt)
    ((listMinD ts : ℤ) - (listMaxD ts : ℤ)))

/-- MongoDb.averageSessionDuration: keep the per-user diffs matching
$gt 0, average them with $avg, and let the caller apply Math.round with
0 on an empty result. -/
def averageSessionDuration (evs : List SessEv) : ℤ :=
  let qual := (sessionDiffs evs).filter (fun d => 0 < d)
  if qual.length = 0 then 0 else jsRound qual.sum qual.length

end MongoDb

/-- Folding min from a bound below the bound of a max fold stays below. -/
theorem foldl_min_le_foldl_max (xs : List ℕ) :
    ∀ a b : ℕ, a ≤ b → xs.foldl Nat.min a ≤ xs.foldl Nat.max b := by
  induction xs with
  | nil => intro a b h; simpa using h
  | cons y ys ih =>
      intro a b h
      exact ih (Nat.min a y) (Nat.max b y)
        (le_trans (Nat.min_le_left a y) (le_trans h (Nat.le_max_left b y)))

/-- The defaulted list minimum never exceeds the defaulted list maximum. -/
theorem listMinD_le_listMaxD (l : List ℕ) : listMinD l ≤ listMaxD l := by
  cases l with
  | nil => exact Nat.le_refl 0
  | cons x xs => exact foldl_min_le_foldl_max xs x x (Nat.le_refl x)

/-- Every per-user diff produced by the MongoDb pipeline is nonpositive,
because the swapped accumulators subtract the maximum from the minimum. -/
theorem mongo_sessionDiffs_nonpos (evs : List SessEv) :
    ∀ d ∈ MongoDb.sessionDiffs evs, d ≤ 0 := by
  intro d hd
  simp only [MongoDb.sessionDiffs, List.mem_map] at hd
  obtain ⟨u, _, rfl⟩ := hd
  have h := listMinD_le_listMaxD
    (((evs.filter (·.user_hash = u)).map (fun e => 1000 * e.dt)))
  omega

/-- C3: averageSessionDuration should return the rounded mean of the
positive per-user max minus min timestamp differences (the columnar
backend does: a user with events at 0s and 10s yields 10), but the
document backend stores the $min accumulator in the field named max and
vice versa, so every diff is nonpositive, the $gt 0 match discards all
users, and the operation returns 0 on every input. -/
theorem c3_average_session_duration_bug :
    GoogleCloudBigQuery.averageSessionDuration [⟨"u", 0⟩, ⟨"u", 10⟩] = 10 ∧
    MongoDb.averageSessionDuration [⟨"u", 0⟩, ⟨"u", 10⟩] = 0 ∧
    ∀ evs : List SessEv, MongoDb.averageSessionDuration evs = 0 := by
  refine ⟨by decide, by decide, fun evs => ?_⟩
  have hnil : (MongoDb.sessionDiffs evs).filter (fun d => 0 < d) = [] := by
    rw [List.filter_eq_nil_iff]
    intro d hd
    have := mongo_sessionDiffs_nonpos evs d hd
    simp only [decide_eq_true_eq]
    omega
  simp only [MongoDb.averageSessionDuration, hnil]
  rfl

/-- One filtered raw event for the pages metric: user_hash, timestamp dt
and the page_url column. -/
structure PageEv where
  user_hash : String
  dt : ℕ
  page_url : String

/-- Group the per-user page selections of the MongoDb pages pipeline by
page: the second $group stage counts one user per selection and sums the
per-user event counts. -/
def groupUserSelections (l : List (String × ℕ)) : List (String × ℕ × ℕ) :=
  (firstDedup (l.map Prod.fst)).map (fun k =>
    let rs := l.filter (fun p => p.1 = k)
    (k, rs.length, (rs.map Prod.snd).sum))

namespace GoogleCloudBigQuery

/-- GoogleCloudBigQuery.pages.  The argument pageFilter is none for the
plain grouping branch, some true for "ENTRY" and some false for "EXIT".
In the filtered branch the inner subquery selects per user MIN(dt) for
"ENTRY" or MAX(dt) for "EXIT", joins back the rows whose dt equals that
per-user value, drops empty page_url values, groups by page_url with
COUNT(DISTINCT user_hash) and SUM(1), orders by user_count descending
and applies LIMIT.  Input: the rows already matching the WHERE filter. -/
def pages (pageFilter : Option Bool) (evs : List PageEv) (limit : ℕ) :
    List (String × ℕ × ℕ) :=
  match pageFilter with
  | none =>
    (sortDescBy (fun r => r.2.1)
      (groupRows ((evs.filter (fun e => e.page_url ≠ "")).map
        (fun e => (e.page_url, e.user_hash))))).take limit
  | some isEntry =>
    let sel : String → ℕ := fun u =>
      let ts := (evs.filter (·.user_hash = u)).map (·.dt)
      if isEntry then listMinD ts else listMaxD ts
    let joined := evs.filter (fun e => e.dt = sel e.user_hash)
    (sortDescBy (fun r => r.2.1)
      (groupRows ((joined.filter (fun e => e.page_url ≠ "")).map
        (fun e => (e.page_url, e.user_hash))))).take limit

end GoogleCloudBigQuery

namespace MongoDb

/-- MongoDb.pages.  The argument pageFilter is none for the plain
grouping branch, some true for "ENTRY" and some false for "EXIT".  Both
branches $sort the matched documents by dt descending; the filtered
branch then groups by user_hash taking $first of page_url for "ENTRY"
or $last for "EXIT" together with the per-user event count, regroups the
selections by page, sorts by user_count descending and applies the
limit.  The page_url $exists clause of the $match stage is vacuous here
because the embedded row type carries a total page_url field. -/
def pages (pageFilter : Option Bool) (evs : List PageEv) (limit : ℕ) :
    List (String × ℕ × ℕ) :=
  let sorted := sortDescBy (·.dt) evs
  match pageFilter with
  | none =>
    (sortDescBy (fun r => r.2.1)
      (groupRows (sorted.map (fun e => (e.page_url, e.user_hash))))).take limit
  | some isEntry =>
    let users := firstDedup (sorted.map (·.user_hash))
    let perUser := users.map (fun u =>
      let ds := sorted.filter (·.user_hash = u)
      ((if isEntry then (ds.head?.map (·.page_url)).getD ""
        else (ds.getLast?.map (·.page_url)).getD ""), ds.length))
    (sortDescBy (fun r => r.2.1) (groupUserSelections perUser)).take limit

end MongoDb

/-- C4: pages("ENTRY") should attribute a user to the page of their
chronologically earliest event; the columnar backend does (user u with
page A at t = 1 and page B at t = 2 is attributed to A), but the
document pipeline sorts dt descending and then takes $first, so "ENTRY"
selects the chronologically latest page and the same user is attributed
to B (and "EXIT", via $last on the descending order, to the earliest). -/
theorem c4_pages_entry_attribution_bug :
    GoogleCloudBigQuery.pages (some true)
      [⟨"u", 1, "A"⟩, ⟨"u", 2, "B"⟩] 10000 = [("A", 1, 1)] ∧
    MongoDb.pages (some true)
      [⟨"u", 1, "A"⟩, ⟨"u", 2, "B"⟩] 10000 = [("B", 1, 2)] ∧
    MongoDb.pages (some false)
      [⟨"u", 1, "A"⟩, ⟨"u", 2, "B"⟩] 10000 = [("A", 1, 2)] := by
  refine ⟨by decide, by decide, by decide⟩

/-- SQL LIKE matching over character lists: the percent wildcard matches
any (possibly empty) segment, the underscore wildcard matches exactly
one character, every other pattern character matches itself. -/
def likeMatchL : List Char → List Char → Bool
  | [], s => s.isEmpty
  | p :: ps, s =>
    if p = '%' then
      likeMatchL ps s ||
        (match s with
         | [] => false
         | _ :: s2 => likeMatchL (p :: ps) s2)
    else
      match s with
      | [] => false
      | c :: s2 => (p = '_' || p = c) && likeMatchL ps s2
termination_by p s => p.length + s.length

/-- SQL LIKE: does the string `s` match the pattern `pat` (model of the
parameterised page_url LIKE @page and referrer_url LIKE @referrer
clauses of the columnar backend). -/
def likeMatch (pat s : String) : Bool := likeMatchL pat.toList s.toList

/-- Calendar day number of a timestamp in seconds, modelling the
yyyy-MM-dd date truncation used for the partition window. -/
def dayOf (t : ℕ) : ℕ := t / 86400

/-- One stored event row as read by the filter predicates.  dt is the
event timestamp in seconds; partDay is DATE(_PARTITIONTIME) as a day
number, none for a row still in the streaming buffer (the document store
has no partition notion and its filters never read partDay).  The
dimension columns are total strings: rows with present fields, which is
the case every claim about the filters exercises. -/
structure EventRow where
  dt : ℕ
  partDay : Option ℕ := none
  user_hash : String := ""
  revision_id : String := ""
  environment_id : String := ""
  event : String := ""
  event_group : String := ""
  utm_source : String := ""
  utm_medium : String := ""
  utm_campaign : String := ""
  utm_term : String := ""
  utm_content : String := ""
  user_country : String := ""
  referrer_url : String := ""
  page_url : String := ""
  browser_name : String := ""
  os_name : String := ""
  device_name : String := ""

/-- The filter_options of an AppQueryOptions / IngestQueryOptions value:
the half-open [fromTs, toTs) time window (the from and to fields of the
source) and the optional dimension filters, absent meaning no clause. -/
structure FilterOptions where
  fromTs : ℕ
  toTs : ℕ
  revision : Option String := none
  environment : Option String := none
  event : Option String := none
  event_group : Option String := none
  utm_source : Option String := none
  utm_medium : Option String := none
  utm_campaign : Option String := none
  utm_term : Option String := none
  utm_content : Option String := none
  country : Option String := none
  referrer : Option String := none
  referrer_tld : Option String := none
  page : Option String := none
  mobile : Option Bool := none
  browser : Option String := none
  os : Option String := none

/-- An optional equality filter: absent contributes no clause, present
requires the field to equal the value. -/
def clauseEq (o : Option String) (field : String) : Bool :=
  match o with
  | none => true
  | some v => field = v

namespace GoogleCloudBigQuery

/-- The MOBILE_TEST SQL fragment: INSTR(browser_name, "Mobile") > 0 OR
device_name = "iPhone" OR device_name = "iPad" OR os_name = "iOS" OR
os_name = "Android". -/
def MOBILE_TEST (r : EventRow) : Bool :=
  containsStr r.browser_name "Mobile" || r.device_name = "iPhone" ||
    r.device_name = "iPad" || r.os_name = "iOS" || r.os_name = "Android"

/-- GoogleCloudBigQuery.includeBuffer: isAfter(to, sub(now, 1 day and
1 hour)); natural subtraction clamps at 0 exactly as real clock values
never would, and is irrelevant for realistic now values. -/
def includeBuffer (now : ℕ) (q : FilterOptions) : Bool :=
  now - (86400 + 3600) < q.toTs

/-- The partition clause of generateRange: DATE(_PARTITIONTIME) between
the date of from and the date of to; NULL partition time fails the
comparison. -/
def partitionRange (q : FilterOptions) (r : EventRow) : Bool :=
  match r.partDay with
  | some d => dayOf q.fromTs ≤ d && d ≤ dayOf q.toTs
  | none => false

/-- The dt clause of generateRange: dt >= from AND dt < to. -/
def filterRange (q : FilterOptions) (r : EventRow) : Bool :=
  q.fromTs ≤ r.dt && r.dt < q.toTs

/-- GoogleCloudBigQuery.generateRange: with the buffer included the
partition clause is widened by OR DATE(_PARTITIONTIME) IS NULL,
otherwise the partition clause applies strictly; the dt clause is
conjoined in both cases. -/
def generateRange (now : ℕ) (q : FilterOptions) (r : EventRow) : Bool :=
  if includeBuffer now q then
    (partitionRange q r || r.partDay = none) && filterRange q r
  else
    partitionRange q r && filterRange q r

/-- GoogleCloudBigQuery.getAppFilter as a row predicate: the range
clause conjoined with one clause per present filter option, in the
order of the source list.  regDomain abstracts the external SQL
function NET.REG_DOMAIN used by the referrer_tld clause. -/
def getAppFilter (regDomain : String → String) (now : ℕ)
    (q : FilterOptions) (r : EventRow) : Bool :=
  generateRange now q r &&
  clauseEq q.revision r.revision_id &&
  clauseEq q.environment r.environment_id &&
  clauseEq q.event r.event &&
  clauseEq q.event_group r.event_group &&
  clauseEq q.utm_source r.utm_source &&
  clauseEq q.utm_medium r.utm_medium &&
  clauseEq q.utm_campaign r.utm_campaign &&
  clauseEq q.utm_term r.utm_term &&
  clauseEq q.utm_content r.utm_content &&
  clauseEq q.country r.user_country &&
  (match q.page with
   | none => true
   | some p => likeMatch p r.page_url) &&
  (match q.referrer with
   | none => true
   | some v => likeMatch v r.referrer_url) &&
  (match q.referrer_tld with
   | none => true
   | some t => regDomain r.referrer_url = t) &&
  (match q.mobile with
   | none => true
   | some true => MOBILE_TEST r
   | some false => !(MOBILE_TEST r)) &&
  clauseEq q.browser r.browser_name &&
  clauseEq q.os r.os_name

/-- GoogleCloudBigQuery.getIngestEndpointFilter: the range clause plus
the optional revision and environment equality clauses. -/
def getIngestEndpointFilter (now : ℕ) (q : FilterOptions) (r : EventRow) : Bool :=
  generateRange now q r &&
  clauseEq q.revision r.revision_id &&
  clauseEq q.environment r.environment_id

end GoogleCloudBigQuery

namespace MongoDb

/-- The MOBILE_TEST list of the document backend as the $or of its five
case-insensitive regular-expression matches: browser_name i-contains
"mobile", device_name i-contains "iphone" or "ipad", os_name i-contains
"ios" or "android". -/
def MOBILE_TEST (r : EventRow) : Bool :=
  icontainsStr r.browser_name "mobile" || icontainsStr r.device_name "iphone" ||
    icontainsStr r.device_name "ipad" || icontainsStr r.os_name "ios" ||
    icontainsStr r.os_name "android"

/-- The getRange clause of the document filters: dt $gte from and
dt $lt to; there is no partition clause in this backend. -/
def getRange (q : FilterOptions) (r : EventRow) : Bool :=
  q.fromTs ≤ r.dt && r.dt < q.toTs

/-- MongoDb.getAppFilter as a document predicate.  The criteria document
is built by Object.assign over one object per present option, so the
referrer_tld clause, which the source maps onto the same referrer_url
key, overwrites the referrer clause when both are present; all string
options are plain equality criteria; on documents carrying the three
device fields (the embedded row type is total) the $nor of the mobile
list is the negation of its $or. -/
def getAppFilter (q : FilterOptions) (r : EventRow) : Bool :=
  getRange q r &&
  clauseEq q.revision r.revision_id &&
  clauseEq q.environment r.environment_id &&
  clauseEq q.event r.event &&
  clauseEq q.event_group r.event_group &&
  clauseEq q.utm_source r.utm_source &&
  clauseEq q.utm_medium r.utm_medium &&
  clauseEq q.utm_campaign r.utm_campaign &&
  clauseEq q.utm_term r.utm_term &&
  clauseEq q.utm_content r.utm_content &&
  clauseEq q.country r.user_country &&
  clauseEq q.page r.page_url &&
  (match q.referrer_tld with
   | some t => r.referrer_url = t
   | none => clauseEq q.referrer r.referrer_url) &&
  (match q.mobile with
   | none => true
   | some true => MOBILE_TEST r
   | some false => !(MOBILE_TEST r)) &&
  clauseEq q.browser r.browser_name &&
  clauseEq q.os r.os_name

/-- MongoDb.getIngestEndpointFilter: the dt range plus the optional
revision and environment equality criteria. -/
def getIngestEndpointFilter (q : FilterOptions) (r : EventRow) : Bool :=
  getRange q r &&
  clauseEq q.revision r.revision_id &&
  clauseEq q.environment r.environment_id

end MongoDb

/-- C5 counterexample: with to well outside the last 25 hours (so no
streaming buffer) the claim requires both backends to restrict strictly
to the partition window resolved from [from, to]; the columnar backend
does and rejects a row whose partition day 50 lies outside the window
[0, 10], but the document backend has no partition predicate at all and
admits the same row. -/
theorem c5_counterexample :
    GoogleCloudBigQuery.includeBuffer 8640000 { fromTs := 0, toTs := 864000 } = false ∧
    GoogleCloudBigQuery.generateRange 8640000 { fromTs := 0, toTs := 864000 }
      { dt := 5, partDay := some 50 } = false ∧
    MongoDb.getAppFilter { fromTs := 0, toTs := 864000 }
      { dt := 5, partDay := some 50 } = true := by
  refine ⟨by decide, by decide, by decide⟩

/-- C5 amended: the partition and buffer rule holds in the columnar
backend only: there, when to is within the last 25 hours the partition
predicate additionally admits rows with an unassigned partition key, and
otherwise a row passes only with a partition day inside the resolved
window; the document backend applies only the half-open dt range in both
of its filters and never reads the partition key. -/
theorem c5_partition_buffer_amended (now : ℕ) (q : FilterOptions) (r : EventRow) :
    (GoogleCloudBigQuery.includeBuffer now q = true ↔ now - 90000 < q.toTs) ∧
    (GoogleCloudBigQuery.includeBuffer now q = false →
      (GoogleCloudBigQuery.generateRange now q r = true ↔
        (∃ d, r.partDay = some d ∧ dayOf q.fromTs ≤ d ∧ d ≤ dayOf q.toTs) ∧
          q.fromTs ≤ r.dt ∧ r.dt < q.toTs)) ∧
    (GoogleCloudBigQuery.includeBuffer now q = true →
      (GoogleCloudBigQuery.generateRange now q r = true ↔
        ((∃ d, r.partDay = some d ∧ dayOf q.fromTs ≤ d ∧ d ≤ dayOf q.toTs) ∨
            r.partDay = none) ∧
          q.fromTs ≤ r.dt ∧ r.dt < q.toTs)) ∧
    (MongoDb.getAppFilter q r = true → MongoDb.getRange q r = true) ∧
    (MongoDb.getRange q r = true ↔ q.fromTs ≤ r.dt ∧ r.dt < q.toTs) ∧
    (∀ pd, MongoDb.getAppFilter q r = MongoDb.getAppFilter q { r with partDay := pd }) ∧
    (∀ pd, MongoDb.getIngestEndpointFilter q r =
      MongoDb.getIngestEndpointFilter q { r with partDay := pd }) := by
  refine ⟨?_, ?_, ?_, ?_, ?_, fun pd => rfl, fun pd => rfl⟩
  · simp only [GoogleCloudBigQuery.includeBuffer, decide_eq_true_eq]
  · intro h
    simp only [GoogleCloudBigQuery.generateRange, h, Bool.false_eq_true, if_false,
      Bool.and_eq_true, GoogleCloudBigQuery.partitionRange,
      GoogleCloudBigQuery.filterRange, decide_eq_true_eq]
    cases hp : r.partDay <;> simp [hp]
  · intro h
    simp only [GoogleCloudBigQuery.generateRange, h, if_true,
      Bool.and_eq_true, Bool.or_eq_true, GoogleCloudBigQuery.partitionRange,
      GoogleCloudBigQuery.filterRange, decide_eq_true_eq]
    cases hp : r.partDay <;> simp [hp]
  · intro h
    simp only [MongoDb.getAppFilter, Bool.and_eq_true] at h
    repeat replace h := h.1
    exact h
  · simp [MongoDb.getRange, Bool.and_eq_true, decide_eq_true_eq]

/-- C5 witness: the amended theorem applied at concrete inputs, once
with the buffer excluded (to far in the past) and once included. -/
theorem c5_partition_buffer_amended_witness :
    (GoogleCloudBigQuery.generateRange 8640000 { fromTs := 0, toTs := 864000 }
        { dt := 5, partDay := some 3 } = true ↔
      (∃ d, ({ dt := 5, partDay := some 3 } : EventRow).partDay = some d ∧
          dayOf 0 ≤ d ∧ d ≤ dayOf 864000) ∧
        0 ≤ 5 ∧ 5 < 864000) ∧
    (GoogleCloudBigQuery.generateRange 0 { fromTs := 0, toTs := 10 }
        { dt := 5, partDay := none } = true ↔
      ((∃ d, ({ dt := 5, partDay := none } : EventRow).partDay = some d ∧
          dayOf 0 ≤ d ∧ d ≤ dayOf 10) ∨
          ({ dt := 5, partDay := none } : EventRow).partDay = none) ∧
        0 ≤ 5 ∧ 5 < 10) := by
  constructor
  · exact (c5_partition_buffer_amended 8640000 { fromTs := 0, toTs := 864000 }
      { dt := 5, partDay := some 3 }).2.1 (by decide)
  · exact (c5_partition_buffer_amended 0 { fromTs := 0, toTs := 10 }
      { dt := 5, partDay := none }).2.2.1 (by decide)

/-- C6 counterexample: a row with browser_name "Safari", device_name
"iPhone 12 Pro" and os_name "tvOS" satisfies none of the five signals
the claim lists (browser_name contains "Mobile", device_name equals
"iPhone" or "iPad", os_name equals "iOS" or "Android"), so under
mobile = true the claimed predicate excludes it and the columnar backend
does exclude it; the document backend nevertheless includes it, because
its mobile signals are case-insensitive substring regular expressions,
not the equalities the claim states. -/
theorem c6_counterexample :
    MongoDb.getAppFilter { fromTs := 0, toTs := 10, mobile := some true }
      { dt := 5, partDay := some 0, browser_name := "Safari",
        device_name := "iPhone 12 Pro", os_name := "tvOS" } = true ∧
    GoogleCloudBigQuery.getAppFilter (fun s => s) 0
      { fromTs := 0, toTs := 10, mobile := some true }
      { dt := 5, partDay := some 0, browser_name := "Safari",
        device_name := "iPhone 12 Pro", os_name := "tvOS" } = false ∧
    (containsStr "Safari" "Mobile" || "iPhone 12 Pro" = "iPhone" ||
      "iPhone 12 Pro" = "iPad" || "tvOS" = "iOS" || "tvOS" = "Android") = false := by
  refine ⟨by decide, by decide, by decide⟩

/-- C6 amended: mobile = true conjoins, in the columnar backend, exactly
the five-signal OR the claim lists and, in the document backend, the $or
of five case-insensitive substring tests on the same three fields;
mobile = false conjoins the negation of the same disjunction in each
backend; an absent flag contributes no clause; and a row with
browser_name "Mobile Safari" is included under true, excluded under
false and included when the flag is unset, in both backends. -/
theorem c6_mobile_filter_amended (rd : String → String) (now : ℕ)
    (q : FilterOptions) (r : EventRow) :
    (GoogleCloudBigQuery.getAppFilter rd now { q with mobile := some true } r =
      (GoogleCloudBigQuery.getAppFilter rd now { q with mobile := none } r &&
        GoogleCloudBigQuery.MOBILE_TEST r)) ∧
    (GoogleCloudBigQuery.getAppFilter rd now { q with mobile := some false } r =
      (GoogleCloudBigQuery.getAppFilter rd now { q with mobile := none } r &&
        !GoogleCloudBigQuery.MOBILE_TEST r)) ∧
    (MongoDb.getAppFilter { q with mobile := some true } r =
      (MongoDb.getAppFilter { q with mobile := none } r && MongoDb.MOBILE_TEST r)) ∧
    (MongoDb.getAppFilter { q with mobile := some false } r =
      (MongoDb.getAppFilter { q with mobile := none } r && !MongoDb.MOBILE_TEST r)) ∧
    GoogleCloudBigQuery.getAppFilter (fun s => s) 0
      { fromTs := 0, toTs := 10, mobile := some true }
      { dt := 5, partDay := some 0, browser_name := "Mobile Safari" } = true ∧
    GoogleCloudBigQuery.getAppFilter (fun s => s) 0
      { fromTs := 0, toTs := 10, mobile := some false }
      { dt := 5, partDay := some 0, browser_name := "Mobile Safari" } = false ∧
    GoogleCloudBigQuery.getAppFilter (fun s => s) 0
      { fromTs := 0, toTs := 10 }
      { dt := 5, partDay := some 0, browser_name := "Mobile Safari" } = true ∧
    MongoDb.getAppFilter { fromTs := 0, toTs := 10, mobile := some true }
      { dt := 5, browser_name := "Mobile Safari" } = true ∧
    MongoDb.getAppFilter { fromTs := 0, toTs := 10, mobile := some false }
      { dt := 5, browser_name := "Mobile Safari" } = false ∧
    MongoDb.getAppFilter { fromTs := 0, toTs := 10 }
      { dt := 5, browser_name := "Mobile Safari" } = true := by
  refine ⟨?_, ?_, ?_, ?_, by decide, by decide, by decide, by decide, by decide, by decide⟩
  · cases h : GoogleCloudBigQuery.MOBILE_TEST r <;>
      simp [GoogleCloudBigQuery.getAppFilter, GoogleCloudBigQuery.generateRange,
        GoogleCloudBigQuery.includeBuffer, GoogleCloudBigQuery.partitionRange,
        GoogleCloudBigQuery.filterRange, h, Bool.and_assoc]
  · cases h : GoogleCloudBigQuery.MOBILE_TEST r <;>
      simp [GoogleCloudBigQuery.getAppFilter, GoogleCloudBigQuery.generateRange,
        GoogleCloudBigQuery.includeBuffer, GoogleCloudBigQuery.partitionRange,
        GoogleCloudBigQuery.filterRange, h, Bool.and_assoc]
  · cases h : MongoDb.MOBILE_TEST r <;>
      simp [MongoDb.getAppFilter, MongoDb.getRange, h, Bool.and_assoc]
  · cases h : MongoDb.MOBILE_TEST r <;>
      simp [MongoDb.getAppFilter, MongoDb.getRange, h, Bool.and_assoc]

namespace GoogleCloudBigQuery

/-- GoogleCloudBigQuery.getTable: raises a GenericError when the
usageIngestEndpointEnvironmentId of the entity is absent, otherwise
derives the wildcard table name from the project id, the analytics data
set name and the binding id. -/
def getTable (projectId dataSetName : String)
    (usageIngestEndpointEnvironmentId : Option String) : Except String String :=
  match usageIngestEndpointEnvironmentId with
  | none => Except.error "Unable to find usage endpoint"
  | some b =>
    Except.ok ("`" ++ projectId ++ "." ++ dataSetName ++ ".s8_" ++ b ++ "_*`")

/-- GoogleCloudBigQuery.query: createQueryJob is awaited outside the
guarded region, so a failure there propagates; only a failure of
getQueryResults is caught and replaced by the empty row list.  The two
Except arguments stand for the outcomes of the two awaited client
calls. -/
def query {α : Type} (createJob : Except String Unit)
    (results : Except String (List α)) : Except String (List α) :=
  match createJob with
  | Except.error e => Except.error e
  | Except.ok _ =>
    Except.ok
      (match results with
       | Except.ok rows => rows
       | Except.error _ => [])

/-- GoogleCloudBigQuery.getFormatForTimeSlice: a five-case switch over
the time_slice string with a GenericError fallthrough. -/
def getFormatForTimeSlice (time_slice : String) : Except String String :=
  if time_slice = "YEAR" then Except.ok "%Y"
  else if time_slice = "MONTH" then Except.ok "%Y-%m"
  else if time_slice = "DAY" then Except.ok "%Y-%m-%d"
  else if time_slice = "HOUR" then Except.ok "%Y-%m-%d %H:00:00"
  else if time_slice = "MINUTE" then Except.ok "%Y-%m-%d %H:%M:00"
  else Except.error ("Unsupported time slice " ++ time_slice)

end GoogleCloudBigQuery

namespace MongoDb

/-- MongoDb.getCollection: raises a GenericError when the
usageIngestEndpointEnvironmentId of the entity is absent, otherwise
resolves the collection named s8_ followed by the binding id. -/
def getCollection (usageIngestEndpointEnvironmentId : Option String) :
    Except String String :=
  match usageIngestEndpointEnvironmentId with
  | none => Except.error "Unable to find usage endpoint"
  | some b => Except.ok ("s8_" ++ b)

/-- MongoDb.runAggregation: the whole body, including the getCollection
call, sits inside the try block, so both an execution failure and the
missing-binding configuration error are caught and replaced by the empty
list.  The Except argument stands for the outcome of running the
aggregation. -/
def runAggregation {α : Type} (usageIngestEndpointEnvironmentId : Option String)
    (aggregationResult : Except String (List α)) : List α :=
  match getCollection usageIngestEndpointEnvironmentId with
  | Except.error _ => []
  | Except.ok _ =>
    match aggregationResult with
    | Except.error _ => []
    | Except.ok rows => rows

/-- MongoDb.getFormatForTimeSlice: the same five-case switch with the
same GenericError fallthrough as the columnar backend. -/
def getFormatForTimeSlice (time_slice : String) : Except String String :=
  if time_slice = "YEAR" then Except.ok "%Y"
  else if time_slice = "MONTH" then Except.ok "%Y-%m"
  else if time_slice = "DAY" then Except.ok "%Y-%m-%d"
  else if time_slice = "HOUR" then Except.ok "%Y-%m-%d %H:00:00"
  else if time_slice = "MINUTE" then Except.ok "%Y-%m-%d %H:%M:00"
  else Except.error ("Unsupported time slice " ++ time_slice)

end MongoDb

/-- C7: execution failures are converted to empty result sets in both
backends, but in the document backend the missing-usage-binding
configuration error is caught by the same try block and also surfaces as
an empty result, where the claim requires it to be raised immediately:
runAggregation with an absent binding returns [] instead of an error. -/
theorem c7_execution_error_soft_fail :
    (∀ err : String,
      GoogleCloudBigQuery.query (Except.ok ()) (Except.error err) =
        Except.ok ([] : List ℕ)) ∧
    (∀ err : String,
      MongoDb.runAggregation (some "env1") (Except.error err) = ([] : List ℕ)) ∧
    (∀ rows : List ℕ, MongoDb.runAggregation (some "env1") (Except.ok rows) = rows) ∧
    MongoDb.runAggregation none (Except.ok [(1 : ℕ)]) = [] := by
  exact ⟨fun err => rfl, fun err => rfl, fun rows => rfl, rfl⟩

/-- C8: both resolvers fail on an absent usage binding and otherwise
derive the physical name deterministically from the binding id; in the
document backend, however, the raised error is then swallowed by
runAggregation, so the operation does return an empty result to its
caller, contradicting the claim that no empty result is returned. -/
theorem c8_usage_binding_resolution :
    GoogleCloudBigQuery.getTable "p8" "analytics" none =
      Except.error "Unable to find usage endpoint" ∧
    MongoDb.getCollection none = Except.error "Unable to find usage endpoint" ∧
    (∀ p d b, GoogleCloudBigQuery.getTable p d (some b) =
      Except.ok ("`" ++ p ++ "." ++ d ++ ".s8_" ++ b ++ "_*`")) ∧
    (∀ b, MongoDb.getCollection (some b) = Except.ok ("s8_" ++ b)) ∧
    MongoDb.runAggregation none (Except.ok [(2 : ℕ)]) = [] := by
  exact ⟨rfl, rfl, fun p d b => rfl, fun b => rfl, rfl⟩

/-- C9: getFormatForTimeSlice agrees between the two backends on every
input, maps the five declared time slices to the formats the claim
lists, and raises the unsupported-time-slice error on every other
input. -/
theorem c9_time_slice_total_exhaustive (s : String) :
    GoogleCloudBigQuery.getFormatForTimeSlice s = MongoDb.getFormatForTimeSlice s ∧
    GoogleCloudBigQuery.getFormatForTimeSlice "YEAR" = Except.ok "%Y" ∧
    GoogleCloudBigQuery.getFormatForTimeSlice "MONTH" = Except.ok "%Y-%m" ∧
    GoogleCloudBigQuery.getFormatForTimeSlice "DAY" = Except.ok "%Y-%m-%d" ∧
    GoogleCloudBigQuery.getFormatForTimeSlice "HOUR" = Except.ok "%Y-%m-%d %H:00:00" ∧
    GoogleCloudBigQuery.getFormatForTimeSlice "MINUTE" = Except.ok "%Y-%m-%d %H:%M:00" ∧
    (s ∉ (["YEAR", "MONTH", "DAY", "HOUR", "MINUTE"] : List String) →
      GoogleCloudBigQuery.getFormatForTimeSlice s =
        Except.error ("Unsupported time slice " ++ s)) := by
  refine ⟨rfl, rfl, rfl, rfl, rfl, rfl, fun h => ?_⟩
  simp only [List.mem_cons, List.not_mem_nil, or_false, not_or] at h
  obtain ⟨h1, h2, h3, h4, h5⟩ := h
  simp [GoogleCloudBigQuery.getFormatForTimeSlice, h1, h2, h3, h4, h5]

/-- C9 witness: the exhaustive theorem applied at the non-enumerated
input "WEEK". -/
theorem c9_time_slice_total_exhaustive_witness :
    "WEEK" ∉ (["YEAR", "MONTH", "DAY", "HOUR", "MINUTE"] : List String) ∧
    GoogleCloudBigQuery.getFormatForTimeSlice "WEEK" =
      Except.error ("Unsupported time slice " ++ "WEEK") := by
  refine ⟨by decide, ?_⟩
  exact (c9_time_slice_total_exhaustive "WEEK").2.2.2.2.2.2 (by decide)

/-- One matched document for the MongoDb grouping metrics: the grouped
dimension fields are optional, none modelling a document in which the
field is absent. -/
structure MDoc where
  user_hash : String := ""
  event : Option String := none
  event_group : Option String := none
  browser_name : Option String := none
  os_name : Option String := none
  user_country : Option String := none
  utm_medium : Option String := none
  utm_source : Option String := none
  utm_campaign : Option String := none

namespace MongoDb

/-- MongoDb.simpleAppAggregation over already-matched documents: when
checkExists is set the $match stage additionally requires the grouped
field to exist; $project emits (key, user_hash) with a missing field
projecting to a missing/null key, modelled as none; $group by the pair
with event_count $sum 1, then $group by key summing user and event
counts; $sort by user_count descending; the cursor limit is applied
last.  The checkExists parameter defaults to false in the source. -/
def simpleAppAggregation (key : MDoc → Option String) (checkExists : Bool)
    (docs : List MDoc) (limit : ℕ) : List (Option String × ℕ × ℕ) :=
  let docs2 := if checkExists then docs.filter (fun d => (key d).isSome) else docs
  (sortDescBy (fun r => r.2.1)
    (groupRows (docs2.map (fun d => (key d, d.user_hash))))).take limit

/-- MongoDb.events: the shared aggregation on the event field, with the
checkExists argument left at its default false. -/
def events (docs : List MDoc) (limit : ℕ) : List (Option String × ℕ × ℕ) :=
  simpleAppAggregation (·.event) false docs limit

/-- MongoDb.browsers: the shared aggregation on browser_name, with
checkExists left at its default false. -/
def browsers (docs : List MDoc) (limit : ℕ) : List (Option String × ℕ × ℕ) :=
  simpleAppAggregation (·.browser_name) false docs limit

/-- MongoDb.operatingSystems: the shared aggregation on os_name, with
checkExists left at its default false. -/
def operatingSystems (docs : List MDoc) (limit : ℕ) : List (Option String × ℕ × ℕ) :=
  simpleAppAggregation (·.os_name) false docs limit

/-- MongoDb.countries: the shared aggregation on user_country with
checkExists set to true. -/
def countries (docs : List MDoc) (limit : ℕ) : List (Option String × ℕ × ℕ) :=
  simpleAppAggregation (·.user_country) true docs limit

/-- MongoDb.eventGroups: the shared aggregation on event_group with
checkExists set to true. -/
def eventGroups (docs : List MDoc) (limit : ℕ) : List (Option String × ℕ × ℕ) :=
  simpleAppAggregation (·.event_group) true docs limit

/-- MongoDb.utms: dispatch on the UTM dimension selector, raising the
unsupported-filter GenericError on any other value; every dimension
invokes the shared aggregation with checkExists set to true. -/
def utms (utmFilter : String) (docs : List MDoc) (limit : ℕ) :
    Except String (List (Option String × ℕ × ℕ)) :=
  if utmFilter = "MEDIUM" then
    Except.ok (simpleAppAggregation (·.utm_medium) true docs limit)
  else if utmFilter = "SOURCE" then
    Except.ok (simpleAppAggregation (·.utm_source) true docs limit)
  else if utmFilter = "CAMPAIGN" then
    Except.ok (simpleAppAggregation (·.utm_campaign) true docs limit)
  else Except.error "UTM filter provided is not currently supported"

end MongoDb

/-- C10: the field-existence check is not uniform across the MongoDb
grouping metrics: a document carrying no grouped field is still counted
by events, browsers and operatingSystems (grouped under the missing/null
key), while countries, eventGroups and utms exclude it; equivalently,
countries is invariant under pre-filtering documents to those with the
field present, while events is not. -/
theorem c10_field_existence_nonuniform :
    MongoDb.events [{ user_hash := "u" }] 10000 = [(none, 1, 1)] ∧
    MongoDb.browsers [{ user_hash := "u" }] 10000 = [(none, 1, 1)] ∧
    MongoDb.operatingSystems [{ user_hash := "u" }] 10000 = [(none, 1, 1)] ∧
    MongoDb.countries [{ user_hash := "u" }] 10000 = [] ∧
    MongoDb.eventGroups [{ user_hash := "u" }] 10000 = [] ∧
    MongoDb.utms "MEDIUM" [{ user_hash := "u" }] 10000 = Except.ok [] ∧
    (∀ (docs : List MDoc) (limit : ℕ), MongoDb.countries docs limit =
      MongoDb.countries (docs.filter (fun d => d.user_country.isSome)) limit) ∧
    (∃ (docs : List MDoc) (limit : ℕ), MongoDb.events docs limit ≠
      MongoDb.events (docs.filter (fun d => d.event.isSome)) limit) := by
  refine ⟨by decide, by decide, by decide, by decide, by decide, by rfl,
    fun docs limit => ?_, ⟨[{ user_hash := "u" }], 10000, by decide⟩⟩
  simp [MongoDb.countries, MongoDb.simpleAppAggregation, List.filter_filter]
